import Mathlib

/-
Verification of the anvil udev/DRM backend (anvil/src/udev.rs).

The development shallowly embeds the backend's pure decision logic:
  * the swap-buffers error taxonomy and the per-CRTC reschedule decision
    of `AnvilState::render` (udev.rs, the `reschedule` match),
  * the `render` entry point's backend lookup and per-CRTC iteration,
  * the control flow of `render_surface` (which fallible call happens in
    which order, and whether `queue_buffer` is reached),
  * the `schedule_initial_render` error dispositions,
  * `scan_connectors`' greedy connector/encoder/CRTC assignment, output
    naming, mode selection and left-to-right output placement,
  * the primary-GPU selection of `run_udev`.

External effects (kernel calls, EGL, GBM, logging) are modelled as oracle
inputs: each fallible external call becomes a `Bool`/`Except` field that the
embedded function consumes in source order.  Rust panics (`expect`,
`panic!`, out-of-bounds indexing) are modelled as `none` / `.error`
results, so partiality of the original code is visible in the types.
-/

namespace Anvil

/-- Kernel mode as reported by a connector: pixel size and the vertical
refresh rate in Hz (`mode.size()` and `mode.vrefresh()`). -/
structure KernelMode where
  w : Nat
  h : Nat
  vrefresh : Nat
deriving DecidableEq

/-- The `drm::SystemError` source of a `DrmError::Access`; only
`PermissionDenied` is distinguished by the scheduler. -/
inductive SystemErrorM
  | PermissionDenied
  | otherSys (code : Nat)
deriving DecidableEq

/-- The `DrmError` variants the render loop's downcast can observe.
`DeviceInactive` and `Access { source: PermissionDenied, .. }` are the
session-suspend-induced causes. -/
inductive DrmErrorM
  | DeviceInactive
  | Access (source : SystemErrorM) (errmsg : String)
  | otherDrm (code : Nat)
deriving DecidableEq

/-- A boxed error cause (`Box<dyn Error>`): what `downcast_ref::<DrmError>()`
yields (`none` when the cause is not a `DrmError`, e.g. a generic I/O
error) together with its `Display` rendering. -/
structure BoxedError where
  downcastDrm : Option DrmErrorM
  msg : String
deriving DecidableEq

/-- `smithay::backend::SwapBuffersError`. -/
inductive SwapBuffersError
  | AlreadySwapped
  | TemporaryFailure (err : BoxedError)
  | ContextLost (err : BoxedError)
deriving DecidableEq

/-- The `matches!` pattern of the reschedule decision in `render`:
`Some(DrmError::DeviceInactive) | Some(DrmError::Access { source:
PermissionDenied, .. })`. -/
def isSuspendFailure : Option DrmErrorM → Bool
  | some .DeviceInactive => true
  | some (.Access .PermissionDenied _) => true
  | _ => false

/-- A one-shot retry timer inserted by `render`: its duration in
milliseconds and the `(device, crtc)` pair its callback re-renders. -/
structure TimerEntry where
  durationMs : Nat
  device : Nat
  crtc : Nat
deriving DecidableEq

/-- The `reschedule` match of `AnvilState::render` on the result of
`render_surface`: `Ok(has_rendered) => !has_rendered`;
`AlreadySwapped => false`; `TemporaryFailure(err)` reschedules unless the
downcast is suspend-induced; `ContextLost` panics (modelled as `.error`
with the panic message). -/
def rescheduleDecision : Except SwapBuffersError Bool → Except String Bool
  | .ok has_rendered => .ok (!has_rendered)
  | .error .AlreadySwapped => .ok false
  | .error (.TemporaryFailure err) => .ok (!isSuspendFailure err.downcastDrm)
  | .error (.ContextLost err) => .error ("Rendering loop lost: " ++ err.msg)

/-- One iteration of the `for (&crtc, surface) in to_render_iter` loop of
`render`: given the `render_surface` result for this CRTC, either panic
(`ContextLost`) or append the 1000/60 ms one-shot timer when the decision
says to reschedule. -/
def renderCrtc (dev crtc : Nat) (res : Except SwapBuffersError Bool)
    (timers : List TimerEntry) : Except String (List TimerEntry) :=
  (rescheduleDecision res).map fun r =>
    if r then timers ++ [⟨1000 / 60, dev, crtc⟩] else timers

/-- The full loop of `render` over the CRTCs selected by the two-iterator
trick, threading the timer list. -/
def renderCrtcs (dev : Nat) (results : Nat → Except SwapBuffersError Bool) :
    List Nat → List TimerEntry → Except String (List TimerEntry)
  | [], timers => .ok timers
  | c :: rest, timers =>
    (renderCrtc dev c (results c) timers).bind (renderCrtcs dev results rest)

/-- The backend-map and timer state that `AnvilState::render` can touch:
for each device node the CRTCs that have a surface, plus the inserted
retry timers. -/
structure UdevStateM where
  backends : List (Nat × List Nat)
  timers : List TimerEntry
deriving DecidableEq

/-- `AnvilState::render(dev_id, crtc)`: look up the backend (missing
backend logs and returns, leaving the state untouched); then iterate
either the singleton CRTC (if it has a surface) or all surfaces of the
device.  `results` is the oracle giving each CRTC's `render_surface`
outcome. -/
def render (st : UdevStateM) (results : Nat → Nat → Except SwapBuffersError Bool)
    (dev : Nat) (crtc : Option Nat) : Except String UdevStateM :=
  match st.backends.lookup dev with
  | none => .ok st
  | some crtcs =>
    let toRender := match crtc with
      | some c => if crtcs.contains c then [c] else []
      | none => crtcs
    (renderCrtcs dev (results dev) toRender st.timers).map
      fun t => { st with timers := t }

/-- Oracle inputs for one `render_surface` call, one per fallible step in
source order: `frame_submitted()`, the output lookup in the space,
`next_buffer()`, `renderer.bind(dmabuf)`, `render_output` (its `Ok`
payload is `Option` damage: `none` means nothing was drawn), and
`queue_buffer()`. -/
structure RenderSurfaceOracles where
  frameSubmitted : Except SwapBuffersError Unit
  outputFound : Bool
  nextBuffer : Except SwapBuffersError (Nat × Nat)
  bindResult : Except SwapBuffersError Unit
  renderOutput : Except SwapBuffersError (Option Unit)
  queueBuffer : Except SwapBuffersError Unit

/-- The control flow of `render_surface`: returns the `Result<bool, _>`
(the `bool` is `has_rendered`) together with whether `queue_buffer` was
invoked.  Mirrors the source: `frame_submitted()?`; missing output returns
`Ok(true)`; `next_buffer()?`; `bind(dmabuf)?`; `render_output` mapped
through `is_some`; only on `Ok(true)` is `queue_buffer()?` reached. -/
def render_surface (o : RenderSurfaceOracles) :
    Except SwapBuffersError Bool × Bool :=
  match o.frameSubmitted with
  | .error e => (.error e, false)
  | .ok _ =>
    if o.outputFound = false then (.ok true, false)
    else
      match o.nextBuffer with
      | .error e => (.error e, false)
      | .ok _ =>
        match o.bindResult with
        | .error e => (.error e, false)
        | .ok _ =>
          match o.renderOutput.map Option.isSome with
          | .ok true =>
            match o.queueBuffer with
            | .error e => (.error e, true)
            | .ok _ => (.ok true, true)
          | x => (x, false)

/-- What `schedule_initial_render` does with the result of
`initial_render`. -/
inductive InitialRenderAction
  | completed
  | ignoredAlreadySwapped
  | rescheduledIdle
  | panicked (msg : String)
deriving DecidableEq

/-- The error dispositions of `schedule_initial_render`: success is done;
`AlreadySwapped` is ignored; `TemporaryFailure` re-inserts itself as an
idle callback; `ContextLost` panics with the same message as the render
loop. -/
def schedule_initial_render (result : Except SwapBuffersError Unit) :
    InitialRenderAction :=
  match result with
  | .ok _ => .completed
  | .error .AlreadySwapped => .ignoredAlreadySwapped
  | .error (.TemporaryFailure _) => .rescheduledIdle
  | .error (.ContextLost err) => .panicked ("Rendering loop lost: " ++ err.msg)

/-- `drm::control::connector::Interface`, restricted to the variants the
short-name table distinguishes; `other` carries the `{:?}` (debug)
rendering of any remaining variant. -/
inductive InterfaceKind
  | DVII
  | DVID
  | DVIA
  | SVideo
  | DisplayPort
  | HDMIA
  | HDMIB
  | EmbeddedDisplayPort
  | other (debugName : String)
deriving DecidableEq

/-- The `interface_short_name` match of `scan_connectors`. -/
def interfaceShortName : InterfaceKind → String
  | .DVII => "DVI-I"
  | .DVID => "DVI-D"
  | .DVIA => "DVI-A"
  | .SVideo => "S-VIDEO"
  | .DisplayPort => "DP"
  | .HDMIA => "HDMI-A"
  | .HDMIB => "HDMI-B"
  | .EmbeddedDisplayPort => "eDP"
  | .other debugName => debugName

/-- `drm::control::connector::Info` as consumed by `scan_connectors`:
interface kind and id, connection state, the encoder handle slots
(`encoders()` yields `Option<Handle>` slots), the mode list and the
physical size (`size()` is an `Option`). -/
structure ConnectorInfo where
  interface : InterfaceKind
  interface_id : Nat
  connected : Bool
  encoders : List (Option Nat)
  modes : List KernelMode
  size : Option (Nat × Nat)
deriving DecidableEq

/-- `drm::control::encoder::Info`: the `possible_crtcs` bitmask, modelled
as the set of CRTC handles the mask covers. -/
structure EncoderInfo where
  possible_crtcs : List Nat
deriving DecidableEq

/-- The opened DRM device as `scan_connectors` queries it: connectors in
device-reported order (with `get_connector` already applied), the CRTC
handles of `resource_handles()` in device order, the encoder lookup
(`get_encoder`, `none` for an `Err` result), and success oracles for
`device.create_surface` and `GbmBufferedSurface::new` per CRTC. -/
structure DrmDeviceM where
  connectors : List ConnectorInfo
  resCrtcs : List Nat
  get_encoder : Nat → Option EncoderInfo
  create_surface_ok : Nat → KernelMode → Bool
  gbm_surface_ok : Nat → Bool

/-- `ResourceHandles::filter_crtcs`: the device's CRTCs, in device order,
restricted to those the encoder's `possible_crtcs` mask permits. -/
def filter_crtcs (resCrtcs : List Nat) (mask : List Nat) : List Nat :=
  resCrtcs.filter fun c => mask.contains c

/-- The candidate CRTC list scanned for one connector: resolve the
non-empty encoder slots through `get_encoder` (keeping `Ok` results), then
flat-map each encoder's permitted CRTCs. -/
def candidateCrtcs (dev : DrmDeviceM) (conn : ConnectorInfo) : List Nat :=
  ((conn.encoders.filterMap id).filterMap dev.get_encoder).flatMap
    fun e => filter_crtcs dev.resCrtcs e.possible_crtcs

/-- The wayland output `Mode` built in `scan_connectors`: size as signed
pixels and refresh encoded as `vrefresh * 1000` (milli-hertz). -/
structure OutputMode where
  w : Int
  h : Int
  refresh : Int
deriving DecidableEq

/-- The logical output registered for one (connector, CRTC) pair: name,
physical size, current and preferred mode, position in the space and the
`UdevOutputId` user-data tag. -/
structure OutputM where
  name : String
  physSize : Int × Int
  currentMode : Option OutputMode
  preferredMode : Option OutputMode
  position : Int × Int
  device_id : Nat
  crtc : Nat
deriving DecidableEq

/-- The `SurfaceData` stored per CRTC: its device node, render node and
the kernel mode the DRM surface was created with. -/
structure SurfaceDataM where
  device_id : Nat
  render_node : Nat
  kernelMode : KernelMode
deriving DecidableEq

/-- The state a connector scan threads: the CRTC → surface mapping under
construction (association list in insertion order), the outputs
registered so far, and the space, modelled as the widths of the mapped
outputs in mapping order (the only attribute `space.output_geometry` is
asked for is `size.w`). -/
structure ScanState where
  backends : List (Nat × SurfaceDataM)
  outputs : List OutputM
  space : List Int
deriving DecidableEq

/-- The output registered for connector `conn` on CRTC `crtc` with kernel
mode `mode` while outputs of widths `space` are mapped: the name is
`interface_short_name ++ "-" ++ interface_id`; physical size defaults to
`(0, 0)`; the mode (size, `vrefresh * 1000`) is both current and
preferred; the position is `(sum of mapped widths, 0)`. -/
def setupOutput (device_id : Nat) (conn : ConnectorInfo) (crtc : Nat)
    (mode : KernelMode) (space : List Int) : OutputM :=
  let m : OutputMode :=
    ⟨Int.ofNat mode.w, Int.ofNat mode.h, Int.ofNat mode.vrefresh * 1000⟩
  let phys := conn.size.getD (0, 0)
  { name := interfaceShortName conn.interface ++ "-" ++ toString conn.interface_id
    physSize := (Int.ofNat phys.1, Int.ofNat phys.2)
    currentMode := some m
    preferredMode := some m
    position := (space.sum, 0)
    device_id := device_id
    crtc := crtc }

/-- The first CRTC of a candidate list that is not already a key of the
mapping under construction — the CRTC the greedy loop of
`scan_connectors` will try to set the connector up on. -/
def firstFreeCrtc (backends : List (Nat × SurfaceDataM)) : List Nat → Option Nat
  | [] => none
  | c :: rest =>
    if backends.any (fun kv => kv.1 == c) then firstFreeCrtc backends rest
    else some c

/-- The `for crtc in crtcs` loop body of `scan_connectors` for one
connector: skip CRTCs already bound in this scan; otherwise read
`connector_info.modes()[0]` (a panic, modelled `none`, when the mode list
is empty); a failing `create_surface` or `GbmBufferedSurface::new` skips
to the next CRTC; on success register the output, map it after the
already-mapped outputs, insert the surface and `break`. -/
def tryCrtcs (dev : DrmDeviceM) (device_id render_node : Nat)
    (conn : ConnectorInfo) : List Nat → ScanState → Option ScanState
  | [], st => some st
  | crtc :: rest, st =>
    if st.backends.any (fun kv => kv.1 == crtc) then
      tryCrtcs dev device_id render_node conn rest st
    else
      match conn.modes with
      | [] => none
      | mode :: _ =>
        if dev.create_surface_ok crtc mode = false then
          tryCrtcs dev device_id render_node conn rest st
        else if dev.gbm_surface_ok crtc = false then
          tryCrtcs dev device_id render_node conn rest st
        else
          some { backends := st.backends ++ [(crtc, ⟨device_id, render_node, mode⟩)]
                 outputs := st.outputs ++ [setupOutput device_id conn crtc mode st.space]
                 space := st.space ++ [Int.ofNat mode.w] }

/-- The outer `for connector_info in connector_infos` loop of
`scan_connectors`, in device-reported order. -/
def scanLoop (dev : DrmDeviceM) (device_id render_node : Nat) :
    List ConnectorInfo → ScanState → Option ScanState
  | [], st => some st
  | conn :: rest, st =>
    (tryCrtcs dev device_id render_node conn (candidateCrtcs dev conn) st).bind
      (scanLoop dev device_id render_node rest)

/-- `scan_connectors`: filter the connectors to the `Connected` ones; if
the render node is unresolvable return the empty mapping with the space
untouched; otherwise run the greedy assignment loop starting from an
empty mapping over the given space.  `none` models a panic during the
scan. -/
def scan_connectors (device_id : Nat) (dev : DrmDeviceM)
    (render_node : Option Nat) (space0 : List Int) : Option ScanState :=
  let connector_infos := dev.connectors.filter fun c => c.connected
  match render_node with
  | none => some ⟨[], [], space0⟩
  | some rn => scanLoop dev device_id rn connector_infos ⟨[], [], space0⟩

/-- The primary-GPU selection of `run_udev`.  `envVar` is
`ANVIL_DRM_DEVICE`; `fromPath` models `DrmNode::from_path(..).ok()`
(`none` is the `expect` panic on the env path); `seatPrimary` is
`primary_gpu(seat)` after `unwrap`; `nodeWithRenderType` models
`node_with_type(NodeType::Render)` flattened through `?` and `.ok()`;
`allGpus` is `all_gpus(seat)` after `unwrap`.  The result `none` models a
panic (`expect`). -/
def selectPrimaryGpu (envVar : Option String) (fromPath : String → Option Nat)
    (seatPrimary : Option String) (nodeWithRenderType : Nat → Option Nat)
    (allGpus : List String) : Option Nat :=
  match envVar with
  | some var => fromPath var
  | none =>
    match seatPrimary.bind (fun x => (fromPath x).bind nodeWithRenderType) with
    | some node => some node
    | none => allGpus.findSome? fromPath

/-- A connected HDMI-A connector reporting a single 1920×1080@60 mode. -/
def exConn : ConnectorInfo :=
  { interface := .HDMIA, interface_id := 1, connected := true,
    encoders := [some 0], modes := [⟨1920, 1080, 60⟩], size := some (600, 340) }

/-- A connected DisplayPort connector reporting a single 2560×1440@144
mode. -/
def exConn2 : ConnectorInfo :=
  { interface := .DisplayPort, interface_id := 1, connected := true,
    encoders := [some 0], modes := [⟨2560, 1440, 144⟩], size := some (700, 390) }

/-- A device with one connected connector, one CRTC (handle 7) and
always-succeeding surface creation. -/
def exDev : DrmDeviceM :=
  { connectors := [exConn], resCrtcs := [7],
    get_encoder := fun _ => some ⟨[7]⟩,
    create_surface_ok := fun _ _ => true, gbm_surface_ok := fun _ => true }

/-- A device where two connected connectors contend for the single CRTC 7
through the same encoder. -/
def exDev2 : DrmDeviceM :=
  { connectors := [exConn, exConn2], resCrtcs := [7],
    get_encoder := fun _ => some ⟨[7]⟩,
    create_surface_ok := fun _ _ => true, gbm_surface_ok := fun _ => true }

/-- A connected connector whose mode list is empty. -/
def badConn : ConnectorInfo :=
  { interface := .HDMIA, interface_id := 1, connected := true,
    encoders := [some 0], modes := [], size := none }

/-- A device whose single connected connector reports no modes but does
reach a free CRTC: reading `modes()[0]` panics. -/
def badDev : DrmDeviceM :=
  { connectors := [badConn], resCrtcs := [7],
    get_encoder := fun _ => some ⟨[7]⟩,
    create_surface_ok := fun _ _ => true, gbm_surface_ok := fun _ => true }

/-- The scan state produced by scanning `exDev` (and also `exDev2`, whose
second connector loses the CRTC contention): one surface on CRTC 7 and
one output for the HDMI-A connector. -/
def exScanSt : ScanState :=
  ⟨[(7, ⟨3, 5, ⟨1920, 1080, 60⟩⟩)],
   [setupOutput 3 exConn 7 ⟨1920, 1080, 60⟩ []],
   [1920]⟩

/-- A `render_surface` run in which every external call succeeds but
`render_output` reports no damage. -/
def exOracles : RenderSurfaceOracles :=
  ⟨.ok (), true, .ok (1, 0), .ok (), .ok none, .ok ()⟩

/- ------------------------------------------------------------------ -/
/- Helper lemmas about the connector scan.                            -/
/- ------------------------------------------------------------------ -/

lemma tryCrtcs_extends (dev : DrmDeviceM) (i rn : Nat) (conn : ConnectorInfo) :
    ∀ (cs : List Nat) (st st' : ScanState),
      tryCrtcs dev i rn conn cs st = some st' →
      ∃ tb tout ts, st'.backends = st.backends ++ tb
        ∧ st'.outputs = st.outputs ++ tout ∧ st'.space = st.space ++ ts := by
  intro cs
  induction cs with
  | nil =>
    intro st st' h
    simp only [tryCrtcs, Option.some.injEq] at h
    subst h
    exact ⟨[], [], [], by simp, by simp, by simp⟩
  | cons crtc rest ih =>
    intro st st' h
    simp only [tryCrtcs] at h
    split at h
    · exact ih st st' h
    · split at h
      · cases h
      · split at h
        · exact ih st st' h
        · split at h
          · exact ih st st' h
          · simp only [Option.some.injEq] at h
            subst h
            exact ⟨_, _, _, rfl, rfl, rfl⟩

lemma scanLoop_extends (dev : DrmDeviceM) (i rn : Nat) :
    ∀ (conns : List ConnectorInfo) (st st' : ScanState),
      scanLoop dev i rn conns st = some st' →
      ∃ tb tout ts, st'.backends = st.backends ++ tb
        ∧ st'.outputs = st.outputs ++ tout ∧ st'.space = st.space ++ ts := by
  intro conns
  induction conns with
  | nil =>
    intro st st' h
    simp only [scanLoop, Option.some.injEq] at h
    subst h
    exact ⟨[], [], [], by simp, by simp, by simp⟩
  | cons conn rest ih =>
    intro st st' h
    simp only [scanLoop, Option.bind_eq_some] at h
    obtain ⟨st1, h1, h2⟩ := h
    obtain ⟨tb1, to1, ts1, hb1, ho1, hs1⟩ := tryCrtcs_extends dev i rn conn _ st st1 h1
    obtain ⟨tb2, to2, ts2, hb2, ho2, hs2⟩ := ih st1 st' h2
    exact ⟨tb1 ++ tb2, to1 ++ to2, ts1 ++ ts2,
      by rw [hb2, hb1, List.append_assoc],
      by rw [ho2, ho1, List.append_assoc],
      by rw [hs2, hs1, List.append_assoc]⟩

lemma tryCrtcs_keys_nodup (dev : DrmDeviceM) (i rn : Nat) (conn : ConnectorInfo) :
    ∀ (cs : List Nat) (st st' : ScanState),
      tryCrtcs dev i rn conn cs st = some st' →
      (st.backends.map Prod.fst).Nodup → (st'.backends.map Prod.fst).Nodup := by
  intro cs
  induction cs with
  | nil =>
    intro st st' h hn
    simp only [tryCrtcs, Option.some.injEq] at h
    subst h
    exact hn
  | cons crtc rest ih =>
    intro st st' h hn
    simp only [tryCrtcs] at h
    split at h
    · exact ih st st' h hn
    · rename_i hb
      split at h
      · cases h
      · split at h
        · exact ih st st' h hn
        · split at h
          · exact ih st st' h hn
          · simp only [Option.some.injEq] at h
            subst h
            have hmem : crtc ∉ st.backends.map Prod.fst := by
              intro hc
              apply hb
              rcases List.mem_map.mp hc with ⟨kv, hkv, hfst⟩
              exact List.any_eq_true.mpr ⟨kv, hkv, by simp [hfst]⟩
            simp only [List.map_append, List.map_cons, List.map_nil]
            rw [List.nodup_append]
            exact ⟨hn, List.nodup_singleton _, by
              intro a ha hb2
              simp only [List.mem_singleton] at hb2
              subst hb2
              exact hmem ha⟩

lemma scanLoop_keys_nodup (dev : DrmDeviceM) (i rn : Nat) :
    ∀ (conns : List ConnectorInfo) (st st' : ScanState),
      scanLoop dev i rn conns st = some st' →
      (st.backends.map Prod.fst).Nodup → (st'.backends.map Prod.fst).Nodup := by
  intro conns
  induction conns with
  | nil =>
    intro st st' h hn
    simp only [scanLoop, Option.some.injEq] at h
    subst h
    exact hn
  | cons conn rest ih =>
    intro st st' h hn
    simp only [scanLoop, Option.bind_eq_some] at h
    obtain ⟨st1, h1, h2⟩ := h
    exact ih st1 st' h2 (tryCrtcs_keys_nodup dev i rn conn _ st st1 h1 hn)

lemma tryCrtcs_eq_find (dev : DrmDeviceM) (i rn : Nat) (conn : ConnectorInfo)
    (hC : ∀ c m, dev.create_surface_ok c m = true)
    (hG : ∀ c, dev.gbm_surface_ok c = true) :
    ∀ (cs : List Nat) (st : ScanState),
      tryCrtcs dev i rn conn cs st =
        match firstFreeCrtc st.backends cs with
        | none => some st
        | some crtc =>
          match conn.modes with
          | [] => none
          | mode :: _ =>
            some ⟨st.backends ++ [(crtc, ⟨i, rn, mode⟩)],
                  st.outputs ++ [setupOutput i conn crtc mode st.space],
                  st.space ++ [Int.ofNat mode.w]⟩ := by
  intro cs
  induction cs with
  | nil => intro st; rfl
  | cons crtc rest ih =>
    intro st
    cases hany : (st.backends.any fun kv => kv.1 == crtc) with
    | true =>
      simp only [tryCrtcs, firstFreeCrtc, hany, if_pos]
      exact ih st
    | false =>
      simp only [tryCrtcs, firstFreeCrtc, hany]
      rw [if_neg (by simp), if_neg (by simp)]
      rcases hm : conn.modes with _ | ⟨mode, ms⟩
      · rfl
      · simp [hC crtc mode, hG crtc]

lemma tryCrtcs_outputs_origin (dev : DrmDeviceM) (i rn : Nat)
    (conn : ConnectorInfo) :
    ∀ (cs : List Nat) (st st' : ScanState),
      tryCrtcs dev i rn conn cs st = some st' →
      ∀ out ∈ st'.outputs, out ∈ st.outputs ∨
        ∃ mode ms crtc, conn.modes = mode :: ms ∧
          out = setupOutput i conn crtc mode st.space ∧
          (crtc, ⟨i, rn, mode⟩) ∈ st'.backends := by
  intro cs
  induction cs with
  | nil =>
    intro st st' h out hout
    simp only [tryCrtcs, Option.some.injEq] at h
    subst h
    exact Or.inl hout
  | cons crtc rest ih =>
    intro st st' h out hout
    simp only [tryCrtcs] at h
    split at h
    · exact ih st st' h out hout
    · split at h
      · cases h
      · rename_i mode ms hm
        split at h
        · exact ih st st' h out hout
        · split at h
          · exact ih st st' h out hout
          · simp only [Option.some.injEq] at h
            subst h
            simp only [List.mem_append, List.mem_singleton] at hout
            rcases hout with hold | hnew
            · exact Or.inl hold
            · refine Or.inr ⟨mode, ms, crtc, hm, hnew, ?_⟩
              simp

lemma scanLoop_outputs_origin (dev : DrmDeviceM) (i rn : Nat) :
    ∀ (conns : List ConnectorInfo) (st st' : ScanState),
      scanLoop dev i rn conns st = some st' →
      ∀ out ∈ st'.outputs, out ∈ st.outputs ∨
        ∃ conn, conn ∈ conns ∧
          ∃ mode ms crtc sp, conn.modes = mode :: ms ∧
            out = setupOutput i conn crtc mode sp ∧
            (crtc, ⟨i, rn, mode⟩) ∈ st'.backends := by
  intro conns
  induction conns with
  | nil =>
    intro st st' h out hout
    simp only [scanLoop, Option.some.injEq] at h
    subst h
    exact Or.inl hout
  | cons conn rest ih =>
    intro st st' h out hout
    simp only [scanLoop, Option.bind_eq_some] at h
    obtain ⟨st1, h1, h2⟩ := h
    rcases ih st1 st' h2 out hout with h1out | ⟨conn', hc', rest'⟩
    · rcases tryCrtcs_outputs_origin dev i rn conn _ st st1 h1 out h1out with
        hold | ⟨mode, ms, crtc, hm, hout', hmem⟩
      · exact Or.inl hold
      · refine Or.inr ⟨conn, List.mem_cons_self _ _,
          mode, ms, crtc, st.space, hm, hout', ?_⟩
        obtain ⟨tb, tout, ts, hb, _, _⟩ := scanLoop_extends dev i rn rest st1 st' h2
        rw [hb]
        exact List.mem_append_left _ hmem
    · exact Or.inr ⟨conn', List.mem_cons_of_mem _ hc', rest'⟩

lemma scan_outputs_origin (i : Nat) (dev : DrmDeviceM) (rnode : Option Nat)
    (sp : List Int) (st : ScanState)
    (h : scan_connectors i dev rnode sp = some st) :
    ∀ out ∈ st.outputs, ∃ conn, conn ∈ dev.connectors ∧ conn.connected = true ∧
      ∃ mode ms crtc sp2, conn.modes = mode :: ms ∧
        out = setupOutput i conn crtc mode sp2 ∧
        ∃ rn, (crtc, ⟨i, rn, mode⟩) ∈ st.backends := by
  intro out hout
  rcases rnode with _ | rn
  · simp only [scan_connectors, Option.some.injEq] at h
    subst h
    cases hout
  · simp only [scan_connectors] at h
    rcases scanLoop_outputs_origin dev i rn _ _ st h out hout with
      hold | ⟨conn, hc, mode, ms, crtc, sp2, hm, hout', hmem⟩
    · cases hold
    · rw [List.mem_filter] at hc
      exact ⟨conn, hc.1, hc.2, mode, ms, crtc, sp2, hm, hout', rn, hmem⟩

lemma tryCrtcs_total (dev : DrmDeviceM) (i rn : Nat) (conn : ConnectorInfo)
    (h : conn.modes ≠ []) :
    ∀ (cs : List Nat) (st : ScanState),
      (tryCrtcs dev i rn conn cs st).isSome = true := by
  intro cs
  induction cs with
  | nil => intro st; rfl
  | cons crtc rest ih =>
    intro st
    simp only [tryCrtcs]
    split
    · exact ih st
    · rcases hm : conn.modes with _ | ⟨mode, ms⟩
      · exact absurd hm h
      · simp only [hm]
        split
        · exact ih st
        · split
          · exact ih st
          · rfl

lemma scanLoop_total (dev : DrmDeviceM) (i rn : Nat) :
    ∀ (conns : List ConnectorInfo), (∀ c ∈ conns, c.modes ≠ []) →
      ∀ st : ScanState, (scanLoop dev i rn conns st).isSome = true := by
  intro conns
  induction conns with
  | nil => intro _ st; rfl
  | cons conn rest ih =>
    intro h st
    simp only [scanLoop]
    obtain ⟨st1, h1⟩ := Option.isSome_iff_exists.mp
      (tryCrtcs_total dev i rn conn (h conn (List.mem_cons_self _ _)) _ st)
    rw [h1, Option.some_bind]
    exact ih (fun c hc => h c (List.mem_cons_of_mem _ hc)) st1

lemma list_ne_append_singleton (l : List TimerEntry) (t : TimerEntry) :
    l ≠ l ++ [t] := by
  intro h
  have hlen := congrArg List.length h
  simp at hlen

/- ------------------------------------------------------------------ -/
/- Claim theorems.                                                    -/
/- ------------------------------------------------------------------ -/

/-- Claim C1: on a failed per-CRTC render pass, `render` inserts the
one-shot `1000/60` ms retry timer for that device and CRTC exactly when
the failure is a `TemporaryFailure` whose downcast is neither
`DeviceInactive` nor an `Access` error with `PermissionDenied`; in
particular `AlreadySwapped` and suspend-induced `TemporaryFailure`s insert
no timer, and the timer duration is 16 ms. -/
theorem render_retry_timer_C1 : ∀ (dev crtc : Nat) (timers : List TimerEntry),
    (∀ e : SwapBuffersError,
      renderCrtc dev crtc (.error e) timers
          = .ok (timers ++ [⟨1000 / 60, dev, crtc⟩])
        ↔ ∃ b, e = .TemporaryFailure b ∧ isSuspendFailure b.downcastDrm = false)
    ∧ renderCrtc dev crtc (.error .AlreadySwapped) timers = .ok timers
    ∧ (∀ b, isSuspendFailure b.downcastDrm = true →
        renderCrtc dev crtc (.error (.TemporaryFailure b)) timers = .ok timers)
    ∧ TimerEntry.durationMs ⟨1000 / 60, dev, crtc⟩ = 16 := by
  intro dev crtc timers
  refine ⟨?_, rfl, ?_, rfl⟩
  · intro e
    constructor
    · intro h
      cases e with
      | AlreadySwapped =>
        simp only [renderCrtc, rescheduleDecision, Except.map, Bool.false_eq_true,
          if_false, Except.ok.injEq] at h
        exact absurd h (list_ne_append_singleton timers _)
      | TemporaryFailure b =>
        cases hs : isSuspendFailure b.downcastDrm with
        | true =>
          simp only [renderCrtc, rescheduleDecision, Except.map, hs,
            Bool.not_true, Bool.false_eq_true, if_false, Except.ok.injEq] at h
          exact absurd h (list_ne_append_singleton timers _)
        | false => exact ⟨b, rfl, hs⟩
      | ContextLost b =>
        simp only [renderCrtc, rescheduleDecision, Except.map] at h
        cases h
    · rintro ⟨b, rfl, hs⟩
      simp [renderCrtc, rescheduleDecision, hs, Except.map]
  · intro b hb
    simp [renderCrtc, rescheduleDecision, hb, Except.map]

/-- Claim C7: a `ContextLost` from either render path is fatal — the
per-frame loop and `schedule_initial_render` both panic with the message
`Rendering loop lost: …`; neither returns a (possibly timer-extended)
success state or reschedules. -/
theorem context_lost_fatal_C7 : ∀ (err : BoxedError) (dev crtc : Nat)
    (timers : List TimerEntry),
    renderCrtc dev crtc (.error (.ContextLost err)) timers
        = .error ("Rendering loop lost: " ++ err.msg)
    ∧ schedule_initial_render (.error (.ContextLost err))
        = .panicked ("Rendering loop lost: " ++ err.msg)
    ∧ (∀ ts, renderCrtc dev crtc (.error (.ContextLost err)) timers ≠ .ok ts)
    ∧ schedule_initial_render (.error (.ContextLost err)) ≠ .rescheduledIdle := by
  intro err dev crtc timers
  refine ⟨rfl, rfl, ?_, by simp [schedule_initial_render]⟩
  intro ts h
  simp only [renderCrtc, rescheduleDecision, Except.map] at h
  cases h

/-- Claim C8: `render` on a device node with no backend entry (e.g. after
`device_removed`) returns the state unchanged: no backend, surface or
timer is touched. -/
theorem render_missing_backend_C8 (st : UdevStateM)
    (results : Nat → Nat → Except SwapBuffersError Bool) (dev : Nat)
    (crtc : Option Nat) (h : st.backends.lookup dev = none) :
    render st results dev crtc = .ok st := by
  simp [render, h]

/-- Claim C10: when `render_surface` runs without error but
`render_output` reports nothing to draw, `queue_buffer` is not called and
the pass returns `Ok(false)`; the scheduler then still inserts the
one-shot `1000/60` ms retry timer for that CRTC. -/
theorem no_damage_retry_C10 (o : RenderSurfaceOracles) (dev crtc : Nat)
    (timers : List TimerEntry)
    (h1 : o.frameSubmitted = .ok ()) (h2 : o.outputFound = true)
    (h3 : ∃ v, o.nextBuffer = .ok v) (h4 : o.bindResult = .ok ())
    (h5 : o.renderOutput = .ok none) :
    render_surface o = (.ok false, false)
    ∧ renderCrtc dev crtc (.ok false) timers
        = .ok (timers ++ [⟨1000 / 60, dev, crtc⟩]) := by
  obtain ⟨v, hv⟩ := h3
  constructor
  · simp [render_surface, h1, h2, hv, h4, h5, Except.map]
  · rfl

/-- Claim C3: with `ANVIL_DRM_DEVICE` set, the primary GPU is the node
derived from that path, independent of every seat input; with it absent,
the seat's primary GPU resolved to its render node is used, and if that
resolution yields nothing, the first enumerable GPU of the seat. -/
theorem primary_gpu_selection_C3 :
    (∀ (var : String) (fromPath : String → Option Nat) (sp1 sp2 : Option String)
        (nw1 nw2 : Nat → Option Nat) (ag1 ag2 : List String),
      selectPrimaryGpu (some var) fromPath sp1 nw1 ag1
          = selectPrimaryGpu (some var) fromPath sp2 nw2 ag2
      ∧ selectPrimaryGpu (some var) fromPath sp1 nw1 ag1 = fromPath var)
    ∧ (∀ (fromPath : String → Option Nat) (seatPrimary : Option String)
        (nw : Nat → Option Nat) (allGpus : List String) (n : Nat),
      seatPrimary.bind (fun x => (fromPath x).bind nw) = some n →
      selectPrimaryGpu none fromPath seatPrimary nw allGpus = some n)
    ∧ (∀ (fromPath : String → Option Nat) (seatPrimary : Option String)
        (nw : Nat → Option Nat) (allGpus : List String),
      seatPrimary.bind (fun x => (fromPath x).bind nw) = none →
      selectPrimaryGpu none fromPath seatPrimary nw allGpus
          = allGpus.findSome? fromPath) := by
  refine ⟨fun _ _ _ _ _ _ _ _ => ⟨rfl, rfl⟩, ?_, ?_⟩
  · intro fromPath sp nw ag n h
    simp [selectPrimaryGpu, h]
  · intro fromPath sp nw ag h
    simp [selectPrimaryGpu, h]

/-- Claim C2: in one scan pass, the CRTC keys of the produced mapping are
pairwise distinct; with surface creation succeeding, a connector is set up
on the first candidate CRTC (encoder order, then device CRTC order) not
already bound in this scan, and is skipped producing nothing when all its
candidates are bound; two connectors whose sole candidate is the same CRTC
yield exactly one surface and one output, for the first connector in
device order. -/
theorem scan_crtc_assignment_C2 :
    (∀ (i : Nat) (dev : DrmDeviceM) (rnode : Option Nat) (sp : List Int)
        (st : ScanState), scan_connectors i dev rnode sp = some st →
      (st.backends.map Prod.fst).Nodup)
    ∧ (∀ (dev : DrmDeviceM) (i rn : Nat) (conn : ConnectorInfo) (st : ScanState),
        (∀ c m, dev.create_surface_ok c m = true) →
        (∀ c, dev.gbm_surface_ok c = true) →
        (firstFreeCrtc st.backends (candidateCrtcs dev conn) = none →
          tryCrtcs dev i rn conn (candidateCrtcs dev conn) st = some st)
        ∧ (∀ crtc mode ms,
            firstFreeCrtc st.backends (candidateCrtcs dev conn) = some crtc →
            conn.modes = mode :: ms →
            tryCrtcs dev i rn conn (candidateCrtcs dev conn) st =
              some ⟨st.backends ++ [(crtc, ⟨i, rn, mode⟩)],
                    st.outputs ++ [setupOutput i conn crtc mode st.space],
                    st.space ++ [Int.ofNat mode.w]⟩))
    ∧ (∀ (dev : DrmDeviceM) (i rn : Nat) (c1 c2 : ConnectorInfo) (k : Nat)
        (mode : KernelMode) (ms : List KernelMode) (st : ScanState),
        (∀ c m, dev.create_surface_ok c m = true) →
        (∀ c, dev.gbm_surface_ok c = true) →
        candidateCrtcs dev c1 = [k] → candidateCrtcs dev c2 = [k] →
        (st.backends.any fun kv => kv.1 == k) = false →
        c1.modes = mode :: ms →
        scanLoop dev i rn [c1, c2] st =
          some ⟨st.backends ++ [(k, ⟨i, rn, mode⟩)],
                st.outputs ++ [setupOutput i c1 k mode st.space],
                st.space ++ [Int.ofNat mode.w]⟩) := by
  refine ⟨?_, ?_, ?_⟩
  · intro i dev rnode sp st h
    rcases rnode with _ | rn
    · simp only [scan_connectors, Option.some.injEq] at h
      subst h
      simp
    · simp only [scan_connectors] at h
      exact scanLoop_keys_nodup dev i rn _ _ st h (by simp)
  · intro dev i rn conn st hC hG
    constructor
    · intro h
      rw [tryCrtcs_eq_find dev i rn conn hC hG, h]
    · intro crtc mode ms hf hm
      rw [tryCrtcs_eq_find dev i rn conn hC hG, hf, hm]
  · intro dev i rn c1 c2 k mode ms st hC hG h1 h2 hfree hm
    have e1 := tryCrtcs_eq_find dev i rn c1 hC hG (candidateCrtcs dev c1) st
    rw [h1] at e1
    simp only [firstFreeCrtc, hfree, Bool.false_eq_true, if_false] at e1
    rw [hm] at e1
    have hany2 : ((st.backends ++ [(k, (⟨i, rn, mode⟩ : SurfaceDataM))]).any
        fun kv => kv.1 == k) = true := by
      simp
    have e2 := tryCrtcs_eq_find dev i rn c2 hC hG (candidateCrtcs dev c2)
      ⟨st.backends ++ [(k, ⟨i, rn, mode⟩)],
       st.outputs ++ [setupOutput i c1 k mode st.space],
       st.space ++ [Int.ofNat mode.w]⟩
    rw [h2] at e2
    simp only [firstFreeCrtc, hany2, if_true] at e2
    simp only [scanLoop]
    rw [h1, e1, Option.some_bind]
    rw [h2, e2, Option.some_bind]

/-- Claim C4: every logical output registered by a connector scan is named
by the interface short-name table (with the debug rendering of the kind as
fallback), followed by a dash and the connector's interface id. -/
theorem output_name_C4 : ∀ (i : Nat) (dev : DrmDeviceM) (rnode : Option Nat)
    (sp : List Int) (st : ScanState),
    scan_connectors i dev rnode sp = some st →
    ∀ out ∈ st.outputs, ∃ conn, conn ∈ dev.connectors ∧ conn.connected = true ∧
      out.name = interfaceShortName conn.interface ++ "-"
        ++ toString conn.interface_id := by
  intro i dev rnode sp st h out hout
  obtain ⟨conn, hc, hconn, mode, ms, crtc, sp2, hm, hout', _⟩ :=
    scan_outputs_origin i dev rnode sp st h out hout
  exact ⟨conn, hc, hconn, by rw [hout']; simp [setupOutput]⟩

/-- Claim C5: every surface of a connector scan is created with the
connector's mode at index 0; the registered output's current mode has that
mode's pixel size and refresh `vrefresh * 1000`, and the same mode is the
output's preferred mode. -/
theorem output_mode_C5 : ∀ (i : Nat) (dev : DrmDeviceM) (rnode : Option Nat)
    (sp : List Int) (st : ScanState),
    scan_connectors i dev rnode sp = some st →
    ∀ out ∈ st.outputs, ∃ conn, conn ∈ dev.connectors ∧ conn.connected = true ∧
      ∃ mode ms, conn.modes = mode :: ms ∧
        out.currentMode = some ⟨Int.ofNat mode.w, Int.ofNat mode.h,
                                Int.ofNat mode.vrefresh * 1000⟩ ∧
        out.preferredMode = out.currentMode ∧
        ∃ surf, (out.crtc, surf) ∈ st.backends ∧ surf.kernelMode = mode := by
  intro i dev rnode sp st h out hout
  obtain ⟨conn, hc, hconn, mode, ms, crtc, sp2, hm, hout', rn, hmem⟩ :=
    scan_outputs_origin i dev rnode sp st h out hout
  subst hout'
  exact ⟨conn, hc, hconn, mode, ms, hm, rfl, rfl, ⟨i, rn, mode⟩, hmem, rfl⟩

/-- Claim C6: when the greedy loop sets a connector up on a CRTC, the new
output's position is `(sum of the widths of the outputs mapped at that
moment, 0)`, and the output's own width is appended to the mapped widths
afterwards. -/
theorem output_position_C6 : ∀ (dev : DrmDeviceM) (i rn : Nat)
    (conn : ConnectorInfo) (st : ScanState) (crtc : Nat) (mode : KernelMode)
    (ms : List KernelMode),
    (∀ c m, dev.create_surface_ok c m = true) →
    (∀ c, dev.gbm_surface_ok c = true) →
    firstFreeCrtc st.backends (candidateCrtcs dev conn) = some crtc →
    conn.modes = mode :: ms →
    ∃ st', tryCrtcs dev i rn conn (candidateCrtcs dev conn) st = some st'
      ∧ st'.outputs = st.outputs ++ [setupOutput i conn crtc mode st.space]
      ∧ (setupOutput i conn crtc mode st.space).position = (st.space.sum, 0)
      ∧ st'.space = st.space ++ [Int.ofNat mode.w] := by
  intro dev i rn conn st crtc mode ms hC hG hf hm
  have e := tryCrtcs_eq_find dev i rn conn hC hG (candidateCrtcs dev conn) st
  rw [hf, hm] at e
  exact ⟨_, e, rfl, rfl, rfl⟩

/-- Claim C9: a scan is total when every connected connector reports at
least one mode (mode index 0 is read unchecked), and a connected connector
with an empty mode list that reaches a free CRTC makes the scan panic
(`none`) instead of being skipped. -/
theorem scan_mode_panic_C9 :
    (∀ (i : Nat) (dev : DrmDeviceM) (rnode : Option Nat) (sp : List Int),
      (∀ conn ∈ dev.connectors, conn.connected = true → conn.modes ≠ []) →
      (scan_connectors i dev rnode sp).isSome = true)
    ∧ scan_connectors 3 badDev (some 5) [] = none := by
  constructor
  · intro i dev rnode sp h
    rcases rnode with _ | rn
    · rfl
    · simp only [scan_connectors]
      apply scanLoop_total
      intro c hc
      rw [List.mem_filter] at hc
      exact h c hc.1 hc.2
  · decide

/- ------------------------------------------------------------------ -/
/- Witnesses: the claim theorems applied at concrete inputs.          -/
/- ------------------------------------------------------------------ -/

/-- Witness for C1: a generic I/O `TemporaryFailure` inserts the timer, a
`DeviceInactive` one does not, and neither does `AlreadySwapped`. -/
theorem render_retry_timer_C1_witness :
    renderCrtc 3 7 (.error (.TemporaryFailure ⟨none, "io"⟩)) []
        = .ok [⟨1000 / 60, 3, 7⟩]
    ∧ renderCrtc 3 7
        (.error (.TemporaryFailure ⟨some .DeviceInactive, "inactive"⟩)) []
        = .ok []
    ∧ renderCrtc 3 7 (.error .AlreadySwapped) [] = .ok [] := by
  refine ⟨?_, ?_, (render_retry_timer_C1 3 7 []).2.1⟩
  · exact ((render_retry_timer_C1 3 7 []).1 _).mpr ⟨⟨none, "io"⟩, rfl, rfl⟩
  · exact (render_retry_timer_C1 3 7 []).2.2.1 ⟨some .DeviceInactive, "inactive"⟩ rfl

/-- Witness for C7 at a concrete lost context. -/
theorem context_lost_fatal_C7_witness :
    renderCrtc 3 7 (.error (.ContextLost ⟨none, "gone"⟩)) []
        = .error ("Rendering loop lost: " ++ "gone")
    ∧ schedule_initial_render (.error (.ContextLost ⟨none, "gone"⟩))
        = .panicked ("Rendering loop lost: " ++ "gone") :=
  ⟨(context_lost_fatal_C7 ⟨none, "gone"⟩ 3 7 []).1,
   (context_lost_fatal_C7 ⟨none, "gone"⟩ 3 7 []).2.1⟩

/-- Witness for C8: rendering on an empty backend map is a no-op. -/
theorem render_missing_backend_C8_witness :
    render ⟨[], []⟩ (fun _ _ => .ok true) 3 none = .ok ⟨[], []⟩ :=
  render_missing_backend_C8 ⟨[], []⟩ (fun _ _ => .ok true) 3 none rfl

/-- Witness for C10 at a concrete all-success, no-damage run. -/
theorem no_damage_retry_C10_witness :
    render_surface exOracles = (.ok false, false)
    ∧ renderCrtc 3 7 (.ok false) [] = .ok [⟨1000 / 60, 3, 7⟩] :=
  no_damage_retry_C10 exOracles 3 7 [] rfl rfl ⟨(1, 0), rfl⟩ rfl rfl

/-- Witness for C3 at concrete selection inputs. -/
theorem primary_gpu_selection_C3_witness :
    selectPrimaryGpu (some "card1") (fun _ => some 1) (some "card0")
        (fun _ => some 2) ["g"] = some 1
    ∧ selectPrimaryGpu none (fun _ => some 1) (some "card0")
        (fun _ => some 2) ["g"] = some 2
    ∧ selectPrimaryGpu none (fun _ => some 1) none
        (fun _ => some 2) ["g"] = ["g"].findSome? (fun _ => some 1) :=
  ⟨(primary_gpu_selection_C3.1 "card1" (fun _ => some 1) (some "card0") none
      (fun _ => some 2) (fun _ => some 2) ["g"] ["g"]).2,
   primary_gpu_selection_C3.2.1 (fun _ => some 1) (some "card0")
      (fun _ => some 2) ["g"] 2 rfl,
   primary_gpu_selection_C3.2.2 (fun _ => some 1) none (fun _ => some 2) ["g"] rfl⟩

/-- Witness for C2: unique keys on the contended example device, and the
two-connector contention resolved in favour of the first connector. -/
theorem scan_crtc_assignment_C2_witness :
    (exScanSt.backends.map Prod.fst).Nodup
    ∧ scanLoop exDev2 3 5 [exConn, exConn2] ⟨[], [], []⟩ =
        some ⟨[] ++ [(7, ⟨3, 5, ⟨1920, 1080, 60⟩⟩)],
              [] ++ [setupOutput 3 exConn 7 ⟨1920, 1080, 60⟩ []],
              [] ++ [Int.ofNat 1920]⟩ := by
  constructor
  · exact scan_crtc_assignment_C2.1 3 exDev2 (some 5) [] exScanSt (by decide)
  · exact scan_crtc_assignment_C2.2.2 exDev2 3 5 exConn exConn2 7
      ⟨1920, 1080, 60⟩ [] ⟨[], [], []⟩ (fun _ _ => rfl) (fun _ => rfl)
      rfl rfl rfl rfl

/-- Witness for C4 at the example device's output. -/
theorem output_name_C4_witness :
    ∃ conn, conn ∈ exDev.connectors ∧ conn.connected = true ∧
      (setupOutput 3 exConn 7 ⟨1920, 1080, 60⟩ []).name
        = interfaceShortName conn.interface ++ "-" ++ toString conn.interface_id :=
  output_name_C4 3 exDev (some 5) [] exScanSt (by decide)
    (setupOutput 3 exConn 7 ⟨1920, 1080, 60⟩ []) (by decide)

/-- Witness for C5 at the example device's output. -/
theorem output_mode_C5_witness :
    ∃ conn, conn ∈ exDev.connectors ∧ conn.connected = true ∧
      ∃ mode ms, conn.modes = mode :: ms ∧
        (setupOutput 3 exConn 7 ⟨1920, 1080, 60⟩ []).currentMode
          = some ⟨Int.ofNat mode.w, Int.ofNat mode.h,
                  Int.ofNat mode.vrefresh * 1000⟩ ∧
        (setupOutput 3 exConn 7 ⟨1920, 1080, 60⟩ []).preferredMode
          = (setupOutput 3 exConn 7 ⟨1920, 1080, 60⟩ []).currentMode ∧
        ∃ surf, ((setupOutput 3 exConn 7 ⟨1920, 1080, 60⟩ []).crtc, surf)
            ∈ exScanSt.backends ∧ surf.kernelMode = mode :=
  output_mode_C5 3 exDev (some 5) [] exScanSt (by decide)
    (setupOutput 3 exConn 7 ⟨1920, 1080, 60⟩ []) (by decide)

/-- Witness for C6: a second output scanned while one 1920-wide output is
mapped is placed at `(1920, 0)`. -/
theorem output_position_C6_witness :
    ∃ st', tryCrtcs exDev2 3 5 exConn2 (candidateCrtcs exDev2 exConn2)
        ⟨[], [], [1920]⟩ = some st'
      ∧ st'.outputs = [] ++ [setupOutput 3 exConn2 7 ⟨2560, 1440, 144⟩ [1920]]
      ∧ (setupOutput 3 exConn2 7 ⟨2560, 1440, 144⟩ [1920]).position
          = (([1920] : List Int).sum, 0)
      ∧ st'.space = [1920] ++ [Int.ofNat 2560] :=
  output_position_C6 exDev2 3 5 exConn2 ⟨[], [], [1920]⟩ 7 ⟨2560, 1440, 144⟩ []
    (fun _ _ => rfl) (fun _ => rfl) (by decide) rfl

/-- Witness for C9: the example device, whose connected connector reports
a mode, scans totally. -/
theorem scan_mode_panic_C9_witness :
    (scan_connectors 3 exDev (some 5) []).isSome = true :=
  scan_mode_panic_C9.1 3 exDev (some 5) [] (by decide)

end Anvil
